import Mathlib

/- Shallow embedding of lib/src/remote/holepunch.c: PSN session negotiation and
   UDP hole punching (session states, notification queue, session-message codec,
   candidate probe protocol). -/

namespace Holepunch

/-- Error categories returned by the holepunch operations (ChiakiErrorCode,
restricted to the kinds this file uses). -/
inductive ChiakiErrorCode where
  | success
  | network
  | httpNonOk
  | timeout
  | bufTooSmall
  | uninitialized
  | invalidData
  | unknown
deriving DecidableEq, Repr

/-- NotificationType: NOTIFICATION_TYPE_UNKNOWN = 0. -/
def NOTIFICATION_TYPE_UNKNOWN : Nat := 0

/-- NotificationType bit for psn:sessionManager:sys:remotePlaySession:created. -/
def NOTIFICATION_TYPE_SESSION_CREATED : Nat := 1

/-- NotificationType bit for psn:sessionManager:sys:rps:members:created. -/
def NOTIFICATION_TYPE_MEMBER_CREATED : Nat := 2

/-- NotificationType bit for psn:sessionManager:sys:rps:members:deleted. -/
def NOTIFICATION_TYPE_MEMBER_DELETED : Nat := 4

/-- NotificationType bit for psn:sessionManager:sys:rps:customData1:updated. -/
def NOTIFICATION_TYPE_CUSTOM_DATA1_UPDATED : Nat := 8

/-- NotificationType bit for psn:sessionManager:sys:rps:sessionMessage:created. -/
def NOTIFICATION_TYPE_SESSION_MESSAGE_CREATED : Nat := 16

/-- SessionState bit values (session_state_t). -/
def SESSION_STATE_INIT : Nat := 0

def SESSION_STATE_WS_OPEN : Nat := 1

def SESSION_STATE_CREATED : Nat := 2

def SESSION_STATE_STARTED : Nat := 4

def SESSION_STATE_CLIENT_JOINED : Nat := 8

def SESSION_STATE_DATA_SENT : Nat := 16

def SESSION_STATE_CONSOLE_JOINED : Nat := 32

def SESSION_STATE_CUSTOMDATA1_RECEIVED : Nat := 64

def SESSION_STATE_CTRL_OFFER_RECEIVED : Nat := 128

def SESSION_STATE_CTRL_OFFER_SENT : Nat := 256

def SESSION_STATE_CTRL_CONSOLE_ACCEPTED : Nat := 512

def SESSION_STATE_CTRL_CLIENT_ACCEPTED : Nat := 1024

def SESSION_STATE_CTRL_ESTABLISHED : Nat := 2048

def SESSION_STATE_DATA_OFFER_RECEIVED : Nat := 4096

def SESSION_STATE_DATA_OFFER_SENT : Nat := 8192

def SESSION_STATE_DATA_CONSOLE_ACCEPTED : Nat := 16384

def SESSION_STATE_DATA_CLIENT_ACCEPTED : Nat := 32768

def SESSION_STATE_DATA_ESTABLISHED : Nat := 65536

/-- Every write to session->state after initialisation, across
websocket_thread_func, chiaki_holepunch_session_create, http_start_session,
chiaki_holepunch_session_start and chiaki_holepunch_session_punch_hole.
Each corresponds to a `session->state |= BIT` statement in the source; there is
no other assignment to the state field during a session's lifetime. -/
inductive SessionStateUpdate where
  | wsOpen
  | created
  | clientJoined
  | dataSent
  | consoleJoined
  | customData1Received
  | ctrlOfferReceived
  | ctrlEstablished
deriving DecidableEq, Repr

/-- Bit value each update ORs into the state. -/
def updateBit : SessionStateUpdate → Nat
  | .wsOpen => SESSION_STATE_WS_OPEN
  | .created => SESSION_STATE_CREATED
  | .clientJoined => SESSION_STATE_CLIENT_JOINED
  | .dataSent => SESSION_STATE_DATA_SENT
  | .consoleJoined => SESSION_STATE_CONSOLE_JOINED
  | .customData1Received => SESSION_STATE_CUSTOMDATA1_RECEIVED
  | .ctrlOfferReceived => SESSION_STATE_CTRL_OFFER_RECEIVED
  | .ctrlEstablished => SESSION_STATE_CTRL_ESTABLISHED

/-- Effect of one `session->state |= BIT` statement. -/
def applyUpdate (state : Nat) (u : SessionStateUpdate) : Nat :=
  state ||| updateBit u

/-- Queue entry of the notification stack (notification_queue_t); only the
classified type and an identity tag are relevant to the queue model. -/
structure Notification where
  ntype : Nat
  nid : Nat
deriving DecidableEq, Repr

/-- Match test `notif->type & types` used by wait_for_notification. -/
def notif_matches (types : Nat) (n : Notification) : Bool :=
  (n.ntype &&& types) != 0

/-- Inner walk of wait_for_notification (head toward tail): the queue list is
ordered newest-first (the head is the most recently enqueued entry, `previous`
points to the next older one), and the walk returns the first entry whose type
matches the mask. -/
def wait_scan (types : Nat) (queue : List Notification) : Option Notification :=
  queue.find? (notif_matches types)

/-- Outer loop of wait_for_notification: scan the queue; if nothing matches,
block on the condition variable until the reader thread prepends a new entry,
then rescan; with no further arrivals the timeout expires. `arrivals` is the
sequence of entries the reader thread will enqueue, and the returned number
counts how many condvar waits happened before the result. -/
def wait_for_notification (types : Nat) :
    List Notification → List Notification → Nat → Option Notification × Nat
  | queue, [], waits =>
    match wait_scan types queue with
    | some n => (some n, waits)
    | none => (none, waits)
  | queue, a :: rest, waits =>
    match wait_scan types queue with
    | some n => (some n, waits)
    | none => wait_for_notification types (a :: queue) rest (waits + 1)

/-- Notification-wait loop of chiaki_holepunch_session_create (after
http_create_session succeeded). `incoming` is the stream of notifications that
will become available, in arrival order; each round waits for the next one
matching SESSION_CREATED | MEMBER_CREATED (entries outside the mask are skipped
by the filter inside wait_for_notification; an exhausted stream is the 30 s
timeout). On timeout or on an unexpected kind the loop breaks with an error
logged, but the function then falls through to `return CHIAKI_ERR_SUCCESS`, so
the computed error is discarded. Returns the error code the function returns
and the final state mask. -/
def session_create_loop : List Notification → Nat → ChiakiErrorCode × Nat
  | [], state => (ChiakiErrorCode.success, state)
  | notif :: rest, state =>
    if notif.ntype &&& (NOTIFICATION_TYPE_SESSION_CREATED ||| NOTIFICATION_TYPE_MEMBER_CREATED) = 0 then
      session_create_loop rest state
    else if notif.ntype = NOTIFICATION_TYPE_SESSION_CREATED then
      let st := state ||| SESSION_STATE_CREATED
      if st &&& SESSION_STATE_CREATED ≠ 0 ∧ st &&& SESSION_STATE_CLIENT_JOINED ≠ 0 then
        (ChiakiErrorCode.success, st)
      else
        session_create_loop rest st
    else if notif.ntype = NOTIFICATION_TYPE_MEMBER_CREATED then
      let st := state ||| SESSION_STATE_CLIENT_JOINED
      if st &&& SESSION_STATE_CREATED ≠ 0 ∧ st &&& SESSION_STATE_CLIENT_JOINED ≠ 0 then
        (ChiakiErrorCode.success, st)
      else
        session_create_loop rest st
    else
      (ChiakiErrorCode.success, state)

/-- Candidate type tag (candidate_type_t): CANDIDATE_TYPE_STATIC = 0,
CANDIDATE_TYPE_LOCAL = 1. -/
inductive CandidateType where
  | STATIC
  | LOCAL
deriving DecidableEq, Repr

/-- Candidate endpoint (candidate_t). Ports are uint16_t values. -/
structure Candidate where
  type : CandidateType
  addr : String
  addr_mapped : String
  port : Nat
  port_mapped : Nat
deriving DecidableEq, Repr

/-- Connection request payload (connection_request_t). Byte arrays are lists
of byte values. -/
structure ConnectionRequest where
  sid : Nat
  peer_sid : Nat
  skey : List Nat
  nat_type : Nat
  candidates : List Candidate
  default_route_mac_addr : List Nat
  local_hashed_id : List Nat
deriving DecidableEq, Repr

/-- Session message action (session_message_action_t). -/
inductive SessionMessageAction where
  | UNKNOWN
  | OFFER
  | RESULT
  | ACCEPT
  | TERMINATE
deriving DecidableEq, Repr

/-- Session message (session_message_t); conn_request is none when the C
pointer is NULL. -/
structure SessionMessage where
  action : SessionMessageAction
  req_id : Nat
  error : Nat
  conn_request : Option ConnectionRequest
deriving DecidableEq, Repr

/-- Zero-initialised candidate, as produced by
`calloc(num_candidates, sizeof(Candidate))`. -/
def zero_candidate : Candidate :=
  { type := CandidateType.STATIC, addr := "", addr_mapped := "", port := 0, port_mapped := 0 }

/-- Zero-initialised connection request, as produced by
`calloc(1, sizeof(ConnectionRequest))` with num_candidates = 0 (the shape of
every automatic RESULT acknowledgement). -/
def empty_conn_request : ConnectionRequest :=
  { sid := 0, peer_sid := 0, skey := List.replicate 16 0, nat_type := 0,
    candidates := [], default_route_mac_addr := List.replicate 6 0,
    local_hashed_id := List.replicate 20 0 }

/-- Auto-ACK window predicate computed by websocket_thread_func under the state
mutex (should_ack_offers). -/
def should_ack_offers (state : Nat) : Bool :=
  ((state &&& SESSION_STATE_CTRL_OFFER_RECEIVED) != 0
      && (state &&& SESSION_STATE_CTRL_ESTABLISHED) == 0)
    || (state &&& SESSION_STATE_DATA_OFFER_RECEIVED) != 0

/-- Outcome of the reader thread handling one received text/binary frame whose
bytes parsed as JSON: the RESULT message sent by the auto-ACK path, if any, and
whether the new notification was pushed onto the queue. -/
structure WsFrameResult where
  ack_sent : Option SessionMessage
  enqueued : Bool
deriving DecidableEq, Repr

/-- Frame handling of websocket_thread_func after json parsing and
classification: `ntype` is the classified notification type of the frame and
`parsed` is the result of session_message_get_payload + session_message_parse
on its body (the codec stage, run only when the auto-ACK window applies to a
SESSION_MESSAGE_CREATED frame; a parse failure hits `continue`, skipping the
enqueue). An OFFER action gets a RESULT with the same req_id, error 0 and a
zeroed connection request; afterwards the notification is prepended to the
queue. -/
def websocket_handle_frame (state : Nat) (ntype : Nat)
    (parsed : Option SessionMessage) : WsFrameResult :=
  if should_ack_offers state && (ntype == NOTIFICATION_TYPE_SESSION_MESSAGE_CREATED) then
    match parsed with
    | none => { ack_sent := none, enqueued := false }
    | some msg =>
      if msg.action = SessionMessageAction.OFFER then
        { ack_sent := some ⟨SessionMessageAction.RESULT, msg.req_id, 0, some empty_conn_request⟩,
          enqueued := true }
      else
        { ack_sent := none, enqueued := true }
  else
    { ack_sent := none, enqueued := true }

/-- JSON values as held by json-c objects. -/
inductive Json where
  | null
  | boolean (b : Bool)
  | num (n : Int)
  | str (s : String)
  | arr (items : List Json)
  | obj (fields : List (String × Json))

/-- Lookup of json_object_object_get_ex: succeeds only on objects holding the
key. -/
def json_object_object_get_ex : Json → String → Option Json
  | Json.obj fields, key => fields.lookup key
  | _, _ => none

/-- Base64 value of one alphabet character, none for anything outside the
alphabet. -/
def b64CharVal (c : Char) : Option Nat :=
  if 65 ≤ c.toNat ∧ c.toNat ≤ 90 then some (c.toNat - 65)
  else if 97 ≤ c.toNat ∧ c.toNat ≤ 122 then some (c.toNat - 97 + 26)
  else if 48 ≤ c.toNat ∧ c.toNat ≤ 57 then some (c.toNat - 48 + 52)
  else if c = '+' then some 62
  else if c = '/' then some 63
  else none

/-- Modelled from the spec: base64 decoding of chiaki_base64_decode
(lib/src/base64.c is not among the sources here; the spec lists base64
encode/decode among the external primitives the core consumes). Standard
base64: four-character groups, with the final group allowed one or two padding
characters; anything else is rejected. -/
def b64DecodeGroups : List Char → Option (List Nat)
  | [] => some []
  | [c1, c2, c3, c4] =>
    match b64CharVal c1, b64CharVal c2 with
    | some v1, some v2 =>
      if c3 = '=' then
        if c4 = '=' then some [v1 * 4 + v2 / 16] else none
      else
        match b64CharVal c3 with
        | some v3 =>
          if c4 = '=' then some [v1 * 4 + v2 / 16, v2 % 16 * 16 + v3 / 4]
          else
            match b64CharVal c4 with
            | some v4 => some [v1 * 4 + v2 / 16, v2 % 16 * 16 + v3 / 4, v3 % 4 * 64 + v4]
            | none => none
        | none => none
    | _, _ => none
  | c1 :: c2 :: c3 :: c4 :: rest =>
    match b64CharVal c1, b64CharVal c2, b64CharVal c3, b64CharVal c4 with
    | some v1, some v2, some v3, some v4 =>
      match b64DecodeGroups rest with
      | some tail =>
        some ((v1 * 4 + v2 / 16) :: (v2 % 16 * 16 + v3 / 4) :: (v3 % 4 * 64 + v4) :: tail)
      | none => none
    | _, _, _, _ => none
  | _ => none

/-- Base64 decode of a string. -/
def chiaki_base64_decode (s : String) : Option (List Nat) :=
  b64DecodeGroups s.toList

/-- Base64 decode into a buffer of the given size, with the error categories of
the C interface: invalid input and insufficient buffer are distinct failures. -/
def chiaki_base64_decode_buf (s : String) (bufSize : Nat) :
    Except ChiakiErrorCode (List Nat) :=
  match chiaki_base64_decode s with
  | none => Except.error ChiakiErrorCode.invalidData
  | some bytes =>
    if bytes.length > bufSize then Except.error ChiakiErrorCode.bufTooSmall
    else Except.ok bytes

/-- Base64 alphabet character for a 6-bit value. -/
def b64EncChar (v : Nat) : Char :=
  "ABCDEFGHIJKLMNOPQRSTUVWXYZabcdefghijklmnopqrstuvwxyz0123456789+/".toList.getD v (Char.ofNat 65)

/-- Modelled from the spec: base64 encoding of chiaki_base64_encode, three-byte
groups with padding on the final group. -/
def b64EncodeGroups : List Nat → List Char
  | [] => []
  | [b1] => [b64EncChar (b1 / 4), b64EncChar (b1 % 4 * 16), '=', '=']
  | [b1, b2] =>
    [b64EncChar (b1 / 4), b64EncChar (b1 % 4 * 16 + b2 / 16), b64EncChar (b2 % 16 * 4), '=']
  | b1 :: b2 :: b3 :: rest =>
    b64EncChar (b1 / 4) :: b64EncChar (b1 % 4 * 16 + b2 / 16)
      :: b64EncChar (b2 % 16 * 4 + b3 / 64) :: b64EncChar (b3 % 64) :: b64EncodeGroups rest

/-- Base64 encode of a byte list. -/
def chiaki_base64_encode (bytes : List Nat) : String :=
  String.mk (b64EncodeGroups bytes)

/-- Byte list viewed as the C char buffer handed to the second base64 round. -/
def stringOfBytes (bytes : List Nat) : String :=
  String.mk (bytes.map Char.ofNat)

/-- Decoding of decode_customdata1: two base64 rounds. The first round decodes
into the 24-byte customdata1_round1 buffer; the second decodes that buffer
(whose reported output size is the first-round length, as the C code reuses
decoded_len for both) into session->custom_data1 and must yield exactly
out_len = 16 bytes, else CHIAKI_ERR_UNKNOWN. -/
def decode_customdata1 (customdata1 : String) : Except ChiakiErrorCode (List Nat) := do
  let round1 ← chiaki_base64_decode_buf customdata1 24
  let out ← chiaki_base64_decode_buf (stringOfBytes round1) round1.length
  if out.length ≠ 16 then Except.error ChiakiErrorCode.unknown
  else Except.ok out

/-- Handling of a CUSTOM_DATA1_UPDATED notification inside
chiaki_holepunch_session_start: the customData1 JSON string must have length
32, else the loop breaks with CHIAKI_ERR_UNKNOWN; otherwise decode_customdata1
runs and, on success, custom_data1 is stored and
SESSION_STATE_CUSTOMDATA1_RECEIVED is ORed into the state. Returns the error
recorded by this round, the stored bytes, and the new state. -/
def session_start_handle_customdata1 (custom_data1 : String) (state : Nat) :
    ChiakiErrorCode × Option (List Nat) × Nat :=
  if custom_data1.length ≠ 32 then
    (ChiakiErrorCode.unknown, none, state)
  else
    match decode_customdata1 custom_data1 with
    | Except.error e => (e, none, state)
    | Except.ok bytes =>
      (ChiakiErrorCode.success, some bytes, state ||| SESSION_STATE_CUSTOMDATA1_RECEIVED)

/-- Classifier parse_notification_type: maps the string at JSON key dataType to
a notification type; there is no case for members:deleted, so that string falls
through to the UNKNOWN branch like any unrecognised dataType. -/
def parse_notification_type (json : Json) : Nat :=
  match json_object_object_get_ex json "dataType" with
  | some (Json.str datatype_str) =>
    if datatype_str = "psn:sessionManager:sys:remotePlaySession:created" then
      NOTIFICATION_TYPE_SESSION_CREATED
    else if datatype_str = "psn:sessionManager:sys:rps:members:created" then
      NOTIFICATION_TYPE_MEMBER_CREATED
    else if datatype_str = "psn:sessionManager:sys:rps:customData1:updated" then
      NOTIFICATION_TYPE_CUSTOM_DATA1_UPDATED
    else if datatype_str = "psn:sessionManager:sys:rps:sessionMessage:created" then
      NOTIFICATION_TYPE_SESSION_MESSAGE_CREATED
    else
      NOTIFICATION_TYPE_UNKNOWN
  | some _ => NOTIFICATION_TYPE_UNKNOWN
  | none => NOTIFICATION_TYPE_UNKNOWN

/-- Conversion of a json-c integer to a uint16_t struct field (C assignment
truncation). -/
def u16ofInt (i : Int) : Nat :=
  (i % 65536).toNat

/-- Conversion of a json-c integer to a uint32_t struct field. -/
def u32ofInt (i : Int) : Nat :=
  (i % 4294967296).toNat

/-- Conversion of a json-c integer to a uint8_t struct field. -/
def u8ofInt (i : Int) : Nat :=
  (i % 256).toNat

/-- Numeric value of a hexadecimal digit character. -/
def hexDigitVal (c : Char) : Option Nat :=
  if 48 ≤ c.toNat ∧ c.toNat ≤ 57 then some (c.toNat - 48)
  else if 97 ≤ c.toNat ∧ c.toNat ≤ 102 then some (c.toNat - 97 + 10)
  else if 65 ≤ c.toNat ∧ c.toNat ≤ 70 then some (c.toNat - 65 + 10)
  else none

/-- Greedy base-16 strtoul on a character list: consumes the leading run of hex
digits, returning the accumulated value and the rest (`end` pointer). -/
def strtoul16 (acc : Nat) : List Char → Nat × List Char
  | [] => (acc, [])
  | c :: rest =>
    match hexDigitVal c with
    | some v => strtoul16 (acc * 16 + v) rest
    | none => (acc, c :: rest)

/-- MAC parsing loop of session_message_parse for a 17-character
defaultRouteMacAddr: six strtoul(.., 16) reads, each but the last required to
stop at a ':' separator; each value is truncated into a uint8_t. A missing
separator is a schema violation. -/
def parse_mac_loop : Nat → List Char → Except ChiakiErrorCode (List Nat)
  | 0, _ => Except.ok []
  | n + 1, cs =>
    let (val, rest) := strtoul16 0 cs
    if n = 0 then
      Except.ok [val % 256]
    else
      match rest with
      | ':' :: rest2 =>
        match parse_mac_loop n rest2 with
        | Except.ok tail => Except.ok (val % 256 :: tail)
        | Except.error e => Except.error e
      | _ => Except.error ChiakiErrorCode.unknown

/-- Action string mapping shared by session_message_parse (an unknown action
string yields SESSION_MESSAGE_ACTION_UNKNOWN, not a failure). -/
def parse_action_str (action : String) : SessionMessageAction :=
  if action = "OFFER" then SessionMessageAction.OFFER
  else if action = "ACCEPT" then SessionMessageAction.ACCEPT
  else if action = "TERMINATE" then SessionMessageAction.TERMINATE
  else if action = "RESULT" then SessionMessageAction.RESULT
  else SessionMessageAction.UNKNOWN

/-- Body of one iteration of the candidate loop in session_message_parse: the
JSON fields are validated and converted exactly as the source does, and the
computed values populate the loop-local variable `candidate` (the C code copies
the array slot by value: `Candidate candidate = msg->conn_request->candidates[i];`).
The returned value is that local copy. -/
def candidate_loop_body (candidate_json : Json) : Except ChiakiErrorCode Candidate :=
  match json_object_object_get_ex candidate_json "type" with
  | some (Json.str type_str) =>
    let ty? :=
      if type_str = "LOCAL" then some CandidateType.LOCAL
      else if type_str = "STATIC" then some CandidateType.STATIC
      else none
    match ty? with
    | none => Except.error ChiakiErrorCode.unknown
    | some ty =>
      match json_object_object_get_ex candidate_json "addr" with
      | some (Json.str addr_str) =>
        match json_object_object_get_ex candidate_json "mappedAddr" with
        | some (Json.str mapped_addr_str) =>
          match json_object_object_get_ex candidate_json "port" with
          | some (Json.num port) =>
            match json_object_object_get_ex candidate_json "mappedPort" with
            | some (Json.num mapped_port) =>
              Except.ok
                { type := ty, addr := addr_str, addr_mapped := mapped_addr_str,
                  port := u16ofInt port, port_mapped := u16ofInt mapped_port }
            | _ => Except.error ChiakiErrorCode.unknown
          | _ => Except.error ChiakiErrorCode.unknown
        | _ => Except.error ChiakiErrorCode.unknown
      | _ => Except.error ChiakiErrorCode.unknown
  | _ => Except.error ChiakiErrorCode.unknown

/-- Candidate array parse of session_message_parse: every element is validated
by candidate_loop_body, but because the loop writes into a by-value copy and
never stores it back, the array slot delivered to the caller keeps its
calloc-zeroed contents. -/
def parse_candidates : List Json → Except ChiakiErrorCode (List Candidate)
  | [] => Except.ok []
  | j :: rest =>
    match candidate_loop_body j with
    | Except.error e => Except.error e
    | Except.ok _ =>
      match parse_candidates rest with
      | Except.ok tail => Except.ok (zero_candidate :: tail)
      | Except.error e => Except.error e

/-- Non-empty connRequest object parse of session_message_parse (lines after
`json_object_object_length(conn_request_json) > 0`). The skey buffer size is
reported as strlen(skey_str); localHashedId decodes into the 20-byte field;
defaultRouteMacAddr is parsed only when it is exactly 17 characters, otherwise
the calloc-zeroed MAC is kept. -/
def parse_conn_request (conn_request_json : Json) :
    Except ChiakiErrorCode ConnectionRequest :=
  match json_object_object_get_ex conn_request_json "sid" with
  | some (Json.num sid) =>
    match json_object_object_get_ex conn_request_json "peerSid" with
    | some (Json.num peer_sid) =>
      match json_object_object_get_ex conn_request_json "skey" with
      | some (Json.str skey_str) =>
        match chiaki_base64_decode_buf skey_str skey_str.length with
        | Except.error e => Except.error e
        | Except.ok skey =>
          match json_object_object_get_ex conn_request_json "natType" with
          | some (Json.num nat_type) =>
            match json_object_object_get_ex conn_request_json "defaultRouteMacAddr" with
            | some (Json.str mac_str) =>
              let mac? : Except ChiakiErrorCode (List Nat) :=
                if mac_str.length = 17 then parse_mac_loop 6 mac_str.toList
                else Except.ok (List.replicate 6 0)
              match mac? with
              | Except.error e => Except.error e
              | Except.ok mac =>
                match json_object_object_get_ex conn_request_json "localHashedId" with
                | some (Json.str local_hashed_id_str) =>
                  match chiaki_base64_decode_buf local_hashed_id_str 20 with
                  | Except.error e => Except.error e
                  | Except.ok local_hashed_id =>
                    match json_object_object_get_ex conn_request_json "candidate" with
                    | some (Json.arr candidate_jsons) =>
                      match parse_candidates candidate_jsons with
                      | Except.error e => Except.error e
                      | Except.ok candidates =>
                        Except.ok
                          { sid := u32ofInt sid, peer_sid := u32ofInt peer_sid,
                            skey := skey, nat_type := u8ofInt nat_type,
                            candidates := candidates,
                            default_route_mac_addr := mac,
                            local_hashed_id := local_hashed_id }
                    | _ => Except.error ChiakiErrorCode.unknown
                | _ => Except.error ChiakiErrorCode.unknown
            | _ => Except.error ChiakiErrorCode.unknown
          | _ => Except.error ChiakiErrorCode.unknown
      | _ => Except.error ChiakiErrorCode.unknown
    | _ => Except.error ChiakiErrorCode.unknown
  | _ => Except.error ChiakiErrorCode.unknown

/-- Number of fields of a JSON object (json_object_object_length). -/
def json_object_object_length : Json → Nat
  | Json.obj fields => fields.length
  | _ => 0

/-- Decoder session_message_parse: requires a string `action`, int `reqId`, int
`error` and object `connRequest`; an empty connRequest leaves the conn_request
pointer NULL, a non-empty one is parsed by parse_conn_request. -/
def session_message_parse (message_json : Json) :
    Except ChiakiErrorCode SessionMessage :=
  match json_object_object_get_ex message_json "action" with
  | some (Json.str action_str) =>
    let action := parse_action_str action_str
    match json_object_object_get_ex message_json "reqId" with
    | some (Json.num req_id) =>
      match json_object_object_get_ex message_json "error" with
      | some (Json.num error) =>
        match json_object_object_get_ex message_json "connRequest" with
        | some (Json.obj conn_fields) =>
          if json_object_object_length (Json.obj conn_fields) > 0 then
            match parse_conn_request (Json.obj conn_fields) with
            | Except.error e => Except.error e
            | Except.ok conn_request =>
              Except.ok
                { action := action, req_id := u16ofInt req_id,
                  error := u16ofInt error, conn_request := some conn_request }
          else
            Except.ok
              { action := action, req_id := u16ofInt req_id,
                error := u16ofInt error, conn_request := none }
        | _ => Except.error ChiakiErrorCode.unknown
      | _ => Except.error ChiakiErrorCode.unknown
    | _ => Except.error ChiakiErrorCode.unknown
  | _ => Except.error ChiakiErrorCode.unknown

/-- Rendering of session_localpeeraddr_fmt (snprintf into a 128-byte buffer;
the escaped quotes of the C template are literal backslash-quote character
pairs in the output). -/
def session_localpeeraddr_render (account_id : Nat) (platform : String) : String :=
  "\x7b\\\"accountId\\\":\\\"" ++ toString account_id ++ "\\\",\\\"platform\\\":\\\""
    ++ platform ++ "\\\"\x7d"

/-- Rendering of session_conrequest_candidate_fmt for one candidate. -/
def session_conrequest_candidate_render (c : Candidate) : String :=
  "\x7b\\\"type\\\":\\\"" ++ (if c.type = CandidateType.LOCAL then "LOCAL" else "STATIC")
    ++ "\\\",\\\"addr\\\":\\\"" ++ c.addr
    ++ "\\\",\\\"mappedAddr\\\":\\\"" ++ c.addr_mapped
    ++ "\\\",\\\"port\\\":" ++ toString c.port
    ++ ",\\\"mappedPort\\\":" ++ toString c.port_mapped ++ "\x7d"

/-- Effective C-string content of the candidates_json buffer built by
session_message_serialize. The build loop runs
`snprintf(candidates_json + candidates_len, candidate_len, "%s", candidate_str)`,
whose size bound equals the candidate's length, so only candidate_len - 1
characters are copied and a NUL terminator lands where the final character
belongs; the ',' is then written after that NUL. Any later `%s` read of the
buffer therefore stops at the first candidate's truncated text (an empty
calloc-zeroed buffer for zero candidates). -/
def candidates_json_effective (cs : List Candidate) : String :=
  match cs with
  | [] => ""
  | c :: _ =>
    let s := session_conrequest_candidate_render c
    s.take (s.length - 1)

/-- Byte array printed through %s: characters up to the first zero byte (the C
code passes the uint8_t[6] MAC field, which is not NUL-terminated; reads past
the field are not modelled). -/
def macRawString (bytes : List Nat) : String :=
  String.mk ((bytes.takeWhile (fun b => b ≠ 0)).map Char.ofNat)

/-- Untruncated rendering of session_connrequest_fmt. -/
def session_connrequest_render (cr : ConnectionRequest) (account_id : Nat) : String :=
  "\x7b\\\"sid\\\":" ++ toString cr.sid
    ++ ",\\\"peerSid\\\":" ++ toString cr.peer_sid
    ++ ",\\\"skey\\\":\\\"" ++ chiaki_base64_encode cr.skey
    ++ "\\\",\\\"natType\\\":" ++ toString cr.nat_type
    ++ ",\\\"candidate\\\":" ++ candidates_json_effective cr.candidates
    ++ ",\\\"defaultRouteMacAddr\\\":\\\"" ++ macRawString cr.default_route_mac_addr
    ++ "\\\",\\\"localPeerAddr\\\":" ++ session_localpeeraddr_render account_id "REMOTE_PLAY"
    ++ ",\\\"localHashedId\\\":\\\"" ++ chiaki_base64_encode cr.local_hashed_id
    ++ "\\\"\x7d"

/-- Action strings of session_message_serialize. -/
def action_render : SessionMessageAction → String
  | SessionMessageAction.OFFER => "OFFER"
  | SessionMessageAction.ACCEPT => "ACCEPT"
  | SessionMessageAction.TERMINATE => "TERMINATE"
  | SessionMessageAction.RESULT => "RESULT"
  | SessionMessageAction.UNKNOWN => "UNKNOWN"

/-- Untruncated rendering of session_message_fmt. -/
def session_message_render (action : SessionMessageAction) (req_id error : Nat)
    (connreq_json : String) : String :=
  "\x7b\\\"action\\\":\\\"" ++ action_render action
    ++ "\\\",\\\"reqId\\\":" ++ toString req_id
    ++ ",\\\"error\\\":" ++ toString error
    ++ ",\\\"connRequest\\\":" ++ connreq_json ++ "\x7d"

/-- Size of a char pointer on the target (x86-64 Linux): both
`snprintf(connreq_json, sizeof(connreq_json), ...)` and
`snprintf(serialized_msg, sizeof(serialized_msg), ...)` in
session_message_serialize bound their output by the size of the heap POINTER,
not of the allocation, so at most 7 characters plus a terminator are written. -/
def SIZEOF_CHAR_PTR : Nat := 8

/-- Encoder session_message_serialize: returns none when message->conn_request
is NULL (the C code dereferences it unconditionally), otherwise the pair of the
produced C string and the reported out_len. The reported length is the snprintf
return value, i.e. the length the full rendering would have had, while the
buffer contents stop after SIZEOF_CHAR_PTR - 1 characters. -/
def session_message_serialize (message : SessionMessage) (account_id : Nat) :
    Option (String × Nat) :=
  match message.conn_request with
  | none => none
  | some cr =>
    let connreq_full := session_connrequest_render cr account_id
    let connreq_json := connreq_full.take (SIZEOF_CHAR_PTR - 1)
    let full := session_message_render message.action message.req_id message.error connreq_json
    some (full.take (SIZEOF_CHAR_PTR - 1), full.length)

/-- Store of a byte run at an offset of a buffer (memcpy / integer store into
the zero-initialised frame). -/
def writeBytes {α : Type} (buf : List α) (off : Nat) (src : List α) : List α :=
  buf.take off ++ src ++ buf.drop (off + src.length)

/-- Big-endian bytes of a uint16 store (ntohs value written whole). -/
def be16 (v : Nat) : List Nat :=
  [v / 256 % 256, v % 256]

/-- Big-endian bytes of a uint32 store (ntohl value written whole). -/
def be32 (v : Nat) : List Nat :=
  [v / 16777216 % 256, v / 65536 % 256, v / 256 % 256, v % 256]

/-- Big-endian uint32 read at an offset of a byte buffer (ntohl of a loaded
uint32_t). -/
def readBE32 (buf : List Nat) (off : Nat) : Nat :=
  buf.getD off 0 * 16777216 + buf.getD (off + 1) 0 * 65536
    + buf.getD (off + 2) 0 * 256 + buf.getD (off + 3) 0

/-- Probe request frame built by check_candidates: an 88-byte zeroed buffer
with MSG_TYPE_REQ stored big-endian at 0x00, the 20-byte local hashed id at
0x04, the 20-byte console hashed id at 0x24, the two sids big-endian at 0x44
and 0x46, and the random request id big-endian at 0x48. -/
def check_candidates_request (hashed_id_local hashed_id_console : List Nat)
    (sid_local sid_console request_id : Nat) : List Nat :=
  writeBytes
    (writeBytes
      (writeBytes
        (writeBytes
          (writeBytes
            (writeBytes (List.replicate 88 0) 0 (be32 6))
            4 hashed_id_local)
          36 hashed_id_console)
        68 (be16 sid_local))
      70 (be16 sid_console))
    72 (be32 request_id)

/-- Response validation of check_candidates: a received datagram must be
exactly 88 bytes (else CHIAKI_ERR_NETWORK), its first four bytes must decode to
MSG_TYPE_RESP = 7 (else CHIAKI_ERR_UNKNOWN), and the uint32 at 0x48 must equal
the request id that was sent (else CHIAKI_ERR_UNKNOWN). -/
def check_candidates_response (response : List Nat) (request_id : Nat) :
    Except ChiakiErrorCode Unit :=
  if response.length ≠ 88 then Except.error ChiakiErrorCode.network
  else if readBE32 response 0 ≠ 7 then Except.error ChiakiErrorCode.unknown
  else if readBE32 response 72 ≠ request_id then Except.error ChiakiErrorCode.unknown
  else Except.ok ()

/-- Index of the first occurrence of a needle in a haystack (strstr), none when
absent. -/
def strstrIdx (needle : List Char) : List Char → Option Nat
  | [] => if needle.isPrefixOf [] then some 0 else none
  | c :: rest =>
    if needle.isPrefixOf (c :: rest) then some 0
    else (strstrIdx needle rest).map (· + 1)

/-- The NUL character. -/
def charNul : Char := Char.ofNat 0

/-- Opening brace character. -/
def charLbrace : Char := Char.ofNat 123

/-- Closing brace character. -/
def charRbrace : Char := Char.ofNat 125

/-- Character content handed to json_tokener_parse by
session_message_get_payload, given the payload string of the notification.
The body is everything after "body=". When the body contains the key
`"localPeerAddr":` not followed by an opening brace, the code builds fixed_json
in a zeroed VLA of strlen(json) + 3 bytes: strncpy of the prefix (up to and
including the colon), braces stored at prefix_len + 1 and prefix_len + 2 (the
index prefix_len keeps its memset zero), and a strncpy of the suffix starting at
prefix_len + 2 (overwriting the closing brace). The C string the parser sees
ends at the first NUL of that buffer. -/
def session_message_get_payload_effective (payload_str : List Char) :
    Option (List Char) :=
  match strstrIdx "body=".toList payload_str with
  | none => none
  | some body_idx =>
    let json := payload_str.drop (body_idx + 5)
    let peeraddr_key := "\"localPeerAddr\":".toList
    match strstrIdx peeraddr_key json with
    | none => some json
    | some key_idx =>
      let prefix_len := key_idx + peeraddr_key.length
      if (json.drop prefix_len).head? = some charLbrace then
        some json
      else
        let buf0 := List.replicate (json.length + 3) charNul
        let buf1 := writeBytes buf0 0 (json.take prefix_len)
        let buf2 := writeBytes buf1 (prefix_len + 1) [charLbrace]
        let buf3 := writeBytes buf2 (prefix_len + 2) [charRbrace]
        let buf4 := writeBytes buf3 (prefix_len + 2) (json.drop prefix_len)
        some (buf4.takeWhile (fun c => c ≠ charNul))

/-- Length of the second base64 round applied to a custom-data string: none
when either round rejects its input, else the byte count of the second round
(the quantity the spec requires to be exactly 16). -/
def double_decode_len (s : String) : Option Nat :=
  match chiaki_base64_decode s with
  | none => none
  | some round1 =>
    match chiaki_base64_decode (stringOfBytes round1) with
    | none => none
    | some out => some out.length

/-- Well-formed session-message JSON used to exhibit the serialize truncation:
an OFFER with one LOCAL candidate. -/
def jsonC4 : Json :=
  Json.obj [
    ("action", Json.str "OFFER"),
    ("reqId", Json.num 7),
    ("error", Json.num 0),
    ("connRequest", Json.obj [
      ("sid", Json.num 99),
      ("peerSid", Json.num 0),
      ("skey", Json.str "AAAAAAAAAAAAAAAAAAAAAA=="),
      ("natType", Json.num 2),
      ("defaultRouteMacAddr", Json.str ""),
      ("localHashedId", Json.str "AAAAAAAAAAAAAAAAAAAAAAAAAAA="),
      ("candidate", Json.arr [
        Json.obj [
          ("type", Json.str "LOCAL"),
          ("addr", Json.str "10.0.0.9"),
          ("mappedAddr", Json.str "0.0.0.0"),
          ("port", Json.num 9300),
          ("mappedPort", Json.num 0)]])])]

/-- The message session_message_parse produces for jsonC4 (candidates zeroed by
the copy bug). -/
def msgC4 : SessionMessage :=
  { action := SessionMessageAction.OFFER, req_id := 7, error := 0,
    conn_request := some
      { sid := 99, peer_sid := 0, skey := List.replicate 16 0, nat_type := 2,
        candidates := [zero_candidate],
        default_route_mac_addr := List.replicate 6 0,
        local_hashed_id := List.replicate 20 0 } }

/-- Well-formed session-message JSON whose single candidate carries the
distinctive values LOCAL / 192.168.1.20 / 9295. -/
def jsonC5 : Json :=
  Json.obj [
    ("action", Json.str "OFFER"),
    ("reqId", Json.num 3),
    ("error", Json.num 0),
    ("connRequest", Json.obj [
      ("sid", Json.num 42),
      ("peerSid", Json.num 0),
      ("skey", Json.str "AAAAAAAAAAAAAAAAAAAAAA=="),
      ("natType", Json.num 2),
      ("defaultRouteMacAddr", Json.str ""),
      ("localHashedId", Json.str "AAAAAAAAAAAAAAAAAAAAAAAAAAA="),
      ("candidate", Json.arr [
        Json.obj [
          ("type", Json.str "LOCAL"),
          ("addr", Json.str "192.168.1.20"),
          ("mappedAddr", Json.str "0.0.0.0"),
          ("port", Json.num 9295),
          ("mappedPort", Json.num 0)]])])]

/-- The message session_message_parse produces for jsonC5: the candidate slot
is the zero candidate, not the JSON values. -/
def msgC5 : SessionMessage :=
  { action := SessionMessageAction.OFFER, req_id := 3, error := 0,
    conn_request := some
      { sid := 42, peer_sid := 0, skey := List.replicate 16 0, nat_type := 2,
        candidates := [zero_candidate],
        default_route_mac_addr := List.replicate 6 0,
        local_hashed_id := List.replicate 20 0 } }

/-- Body text of a session message up to and including the value-less
localPeerAddr key. -/
def bodyPrefixC6 : String :=
  "\x7b\"action\":\"OFFER\",\"reqId\":3,\"error\":0,\"connRequest\":\x7b\x7d,\"localPeerAddr\":"

/-- Remainder of that body after the missing value (the comma and the next
key). -/
def bodySuffixC6 : String :=
  ",\"localHashedId\":\"AAAA\"\x7d"

/-- Payload string whose body carries `"localPeerAddr":` immediately followed
by a comma, the case the quirk-patch is meant to fix. -/
def payloadC6 : String :=
  "ver=1.0, type=text, body=" ++ bodyPrefixC6 ++ bodySuffixC6

/-- The patched body the claim describes: an empty object spliced in as the
value of localPeerAddr. -/
def claimPatchedBodyC6 : String :=
  bodyPrefixC6 ++ "\x7b\x7d" ++ bodySuffixC6

/-- Store at an offset equal to the length of a known prefix rewrites cleanly
into append form. -/
lemma writeBytes_at {α : Type} (pre rest src : List α) (off : Nat)
    (hoff : pre.length = off) :
    writeBytes (pre ++ rest) off src = pre ++ (src ++ rest.drop src.length) := by
  unfold writeBytes
  subst hoff
  rw [List.take_left, ← List.drop_drop, List.drop_left, List.append_assoc]

/-- A successful base64 decode produces at most three bytes per four input
characters. -/
lemma b64DecodeGroups_length (cs : List Char) :
    ∀ bs, b64DecodeGroups cs = some bs → 4 * bs.length ≤ 3 * cs.length := by
  induction cs using b64DecodeGroups.induct <;>
    intro bs h <;>
    simp only [b64DecodeGroups] at h <;>
    simp_all <;>
    (subst h; simp; try omega)

/-- C1: the claim says the creation wait returns TIMEOUT when the 30 s wait
expires, UNKNOWN on an unexpected notification kind, and SUCCESS only once
both CREATED and CLIENT_JOINED are set. Against the code: with no notification
arriving the wait times out, yet chiaki_holepunch_session_create falls through
to `return CHIAKI_ERR_SUCCESS` with neither bit set, so SUCCESS is returned on
the timeout path. -/
theorem session_create_timeout_returns_success :
    session_create_loop [] SESSION_STATE_WS_OPEN
      = (ChiakiErrorCode.success, SESSION_STATE_WS_OPEN)
    ∧ SESSION_STATE_WS_OPEN &&& SESSION_STATE_CREATED = 0
    ∧ SESSION_STATE_WS_OPEN &&& SESSION_STATE_CLIENT_JOINED = 0 :=
  ⟨rfl, by decide, by decide⟩

/-- C2: every write to the session state ORs a bit in, so a bit that is set at
some point is still set after any later sequence of updates performed by
create, start, punch-hole or the reader thread. -/
theorem session_state_monotonic (s : Nat) (updates : List SessionStateUpdate)
    (i : Nat) (h : s.testBit i = true) :
    (updates.foldl applyUpdate s).testBit i = true := by
  induction updates generalizing s with
  | nil => exact h
  | cons u rest ih =>
    exact ih _ (by simp [applyUpdate, Nat.testBit_or, h])

/-- Witness for C2 at a concrete state and update sequence. -/
theorem session_state_monotonic_witness :
    (1 : Nat).testBit 0 = true
    ∧ ([SessionStateUpdate.created, SessionStateUpdate.clientJoined].foldl
        applyUpdate 1).testBit 0 = true :=
  ⟨by decide,
   session_state_monotonic 1 [SessionStateUpdate.created, SessionStateUpdate.clientJoined] 0
     (by decide)⟩

/-- C3: for a SESSION_MESSAGE_CREATED frame whose payload parses to an OFFER,
the reader thread sends the RESULT acknowledgement (same req_id, error 0,
zeroed connection request) exactly when
(CTRL_OFFER_RECEIVED ∧ ¬CTRL_ESTABLISHED) ∨ DATA_OFFER_RECEIVED holds of the
state at arrival; outside that window nothing is sent and the notification is
only enqueued. -/
theorem websocket_auto_ack_policy (state : Nat) (msg : SessionMessage)
    (hOffer : msg.action = SessionMessageAction.OFFER) :
    (websocket_handle_frame state NOTIFICATION_TYPE_SESSION_MESSAGE_CREATED (some msg)
        = { ack_sent := some ⟨SessionMessageAction.RESULT, msg.req_id, 0, some empty_conn_request⟩,
            enqueued := true }
      ↔ ((state &&& SESSION_STATE_CTRL_OFFER_RECEIVED ≠ 0
            ∧ state &&& SESSION_STATE_CTRL_ESTABLISHED = 0)
          ∨ state &&& SESSION_STATE_DATA_OFFER_RECEIVED ≠ 0))
    ∧ (¬ ((state &&& SESSION_STATE_CTRL_OFFER_RECEIVED ≠ 0
            ∧ state &&& SESSION_STATE_CTRL_ESTABLISHED = 0)
          ∨ state &&& SESSION_STATE_DATA_OFFER_RECEIVED ≠ 0) →
        websocket_handle_frame state NOTIFICATION_TYPE_SESSION_MESSAGE_CREATED (some msg)
          = { ack_sent := none, enqueued := true }) := by
  have hw : should_ack_offers state = true ↔
      ((state &&& SESSION_STATE_CTRL_OFFER_RECEIVED ≠ 0
          ∧ state &&& SESSION_STATE_CTRL_ESTABLISHED = 0)
        ∨ state &&& SESSION_STATE_DATA_OFFER_RECEIVED ≠ 0) := by
    simp [should_ack_offers]
  by_cases hs : should_ack_offers state = true
  · refine ⟨?_, fun hnw => absurd (hw.mp hs) hnw⟩
    have hwin := hw.mp hs
    simp [websocket_handle_frame, hs, hOffer, hwin]
  · have hsf : should_ack_offers state = false := by
      simpa using hs
    have hnw := fun hwin => hs (hw.mpr hwin)
    refine ⟨?_, fun _ => ?_⟩
    · simp [websocket_handle_frame, hsf]
      tauto
    · simp [websocket_handle_frame, hsf]

/-- Witness for C3: in state CTRL_OFFER_RECEIVED an OFFER frame with req_id 5
is inside the auto-ACK window. -/
theorem websocket_auto_ack_policy_witness :
    (⟨SessionMessageAction.OFFER, 5, 0, none⟩ : SessionMessage).action
        = SessionMessageAction.OFFER
    ∧ ((websocket_handle_frame 128 NOTIFICATION_TYPE_SESSION_MESSAGE_CREATED
          (some ⟨SessionMessageAction.OFFER, 5, 0, none⟩)
          = { ack_sent := some ⟨SessionMessageAction.RESULT, 5, 0, some empty_conn_request⟩,
              enqueued := true }
        ↔ ((128 &&& SESSION_STATE_CTRL_OFFER_RECEIVED ≠ 0
              ∧ 128 &&& SESSION_STATE_CTRL_ESTABLISHED = 0)
            ∨ 128 &&& SESSION_STATE_DATA_OFFER_RECEIVED ≠ 0))
      ∧ (¬ ((128 &&& SESSION_STATE_CTRL_OFFER_RECEIVED ≠ 0
              ∧ 128 &&& SESSION_STATE_CTRL_ESTABLISHED = 0)
            ∨ 128 &&& SESSION_STATE_DATA_OFFER_RECEIVED ≠ 0) →
          websocket_handle_frame 128 NOTIFICATION_TYPE_SESSION_MESSAGE_CREATED
            (some ⟨SessionMessageAction.OFFER, 5, 0, none⟩)
            = { ack_sent := none, enqueued := true })) :=
  ⟨rfl, websocket_auto_ack_policy 128 ⟨SessionMessageAction.OFFER, 5, 0, none⟩ rfl⟩

set_option maxRecDepth 8000 in
/-- C4: the claim says decode then serialize then decode reproduces the first
decode. Against the code: jsonC4 decodes successfully to msgC4, yet
session_message_serialize bounds its snprintf calls by the size of a char
pointer, so the produced buffer is the 7-character string left brace backslash
quote a c t i while the reported length is that of the full envelope; the
truncated buffer is not the serialized message and cannot decode back to
msgC4. -/
theorem session_message_serialize_truncated :
    session_message_parse jsonC4 = Except.ok msgC4
    ∧ session_message_serialize msgC4 1234 = some ("\x7b\\\"acti", 70)
    ∧ ("\x7b\\\"acti" : String).length = 7 :=
  ⟨rfl, rfl, by decide⟩

set_option maxRecDepth 8000 in
/-- C5: the claim says each decoded candidate carries the type, addr,
mappedAddr, port and mappedPort of the corresponding JSON candidate. Against
the code: the loop writes into a by-value copy of the array slot and never
stores it back, so parsing jsonC5 (whose candidate is LOCAL 192.168.1.20:9295)
yields the calloc-zeroed candidate instead. -/
theorem session_message_parse_discards_candidate_fields :
    session_message_parse jsonC5 = Except.ok msgC5
    ∧ msgC5.conn_request.map ConnectionRequest.candidates = some [zero_candidate]
    ∧ zero_candidate.addr ≠ "192.168.1.20"
    ∧ zero_candidate.port ≠ 9295
    ∧ zero_candidate.type ≠ CandidateType.LOCAL :=
  ⟨rfl, rfl, by decide, by decide, by decide⟩

set_option maxRecDepth 8000 in
/-- C6: the claim says the codec inserts an empty object as the value of a
value-less localPeerAddr key and the patched body parses successfully. Against
the code: the patch leaves the memset NUL at index prefix_len (the brace is
stored one position later and the suffix copy overwrites the closing brace),
so the C string handed to json_tokener_parse is just the body prefix ending at
the colon of `"localPeerAddr":` - not the patched body - and cannot parse as
JSON. -/
theorem session_message_get_payload_patch_truncated :
    session_message_get_payload_effective payloadC6.toList = some bodyPrefixC6.toList
    ∧ bodyPrefixC6.toList ≠ claimPatchedBodyC6.toList :=
  ⟨rfl, by decide⟩

/-- C7: during session_start a CUSTOM_DATA1_UPDATED whose string length is not
32 records CHIAKI_ERR_UNKNOWN and does not set CUSTOMDATA1_RECEIVED; a
32-character value runs two base64 rounds and is accepted (bit set, SUCCESS)
exactly when the second round yields exactly 16 bytes. -/
theorem session_start_customdata1_policy (s : String) (state : Nat) :
    (s.length ≠ 32 →
      session_start_handle_customdata1 s state = (ChiakiErrorCode.unknown, none, state))
    ∧ (s.length = 32 →
      (((session_start_handle_customdata1 s state).1 = ChiakiErrorCode.success
          ∧ (session_start_handle_customdata1 s state).2.2
              = state ||| SESSION_STATE_CUSTOMDATA1_RECEIVED)
        ↔ double_decode_len s = some 16)) := by
  constructor
  · intro h
    simp [session_start_handle_customdata1, h]
  · intro h32
    have hlen : s.toList.length = 32 := h32
    simp only [session_start_handle_customdata1, h32, ne_eq, not_true_eq_false, if_false]
    cases hd1 : chiaki_base64_decode s with
    | none =>
      simp [decode_customdata1, chiaki_base64_decode_buf, hd1, double_decode_len,
        Bind.bind, Except.bind]
    | some r1 =>
      have hr1 : r1.length ≤ 24 := by
        have := b64DecodeGroups_length s.toList r1 hd1
        omega
      cases hd2 : chiaki_base64_decode (stringOfBytes r1) with
      | none =>
        simp [decode_customdata1, chiaki_base64_decode_buf, hd1, hd2, double_decode_len,
          Nat.not_lt.mpr hr1, Bind.bind, Except.bind]
      | some out =>
        have hout : out.length ≤ r1.length := by
          have h := b64DecodeGroups_length (stringOfBytes r1).toList out hd2
          have hsl : (stringOfBytes r1).toList.length = r1.length := by
            simp [stringOfBytes]
          omega
        by_cases h16 : out.length = 16
        · have hg : ¬ r1.length < 16 := by omega
          simp [decode_customdata1, chiaki_base64_decode_buf, hd1, hd2, double_decode_len,
            Nat.not_lt.mpr hr1, hg, h16, Bind.bind, Except.bind]
        · simp [decode_customdata1, chiaki_base64_decode_buf, hd1, hd2, double_decode_len,
            Nat.not_lt.mpr hr1, Nat.not_lt.mpr hout, h16, Bind.bind, Except.bind]

/-- Witness for C7 at the 32-character string of the spec example, whose second
base64 round yields 18 bytes and which is therefore rejected. -/
theorem session_start_customdata1_policy_witness :
    ("QUJDREVGR0hJSktMTU5PUFFSU1RVVldY" : String).length = 32
    ∧ (((session_start_handle_customdata1 "QUJDREVGR0hJSktMTU5PUFFSU1RVVldY" 32).1
            = ChiakiErrorCode.success
        ∧ (session_start_handle_customdata1 "QUJDREVGR0hJSktMTU5PUFFSU1RVVldY" 32).2.2
            = 32 ||| SESSION_STATE_CUSTOMDATA1_RECEIVED)
      ↔ double_decode_len "QUJDREVGR0hJSktMTU5PUFFSU1RVVldY" = some 16) :=
  ⟨by decide, (session_start_customdata1_policy "QUJDREVGR0hJSktMTU5PUFFSU1RVVldY" 32).2 (by decide)⟩

/-- C8: every outbound probe frame is the 88-byte layout with 0x00000006
big-endian first, the local hashed id at 0x04 zero-padded to 32 bytes, the
console hashed id at 0x24, the sids big-endian at 0x44 and 0x46 and the request
id at 0x48; a response is accepted exactly when it is 88 bytes with msg_type 7
and the echoed request id, and every other response aborts with an error. -/
theorem check_candidates_probe_format (hl hc : List Nat) (sl sc rid : Nat)
    (resp : List Nat) (h1 : hl.length = 20) (h2 : hc.length = 20) :
    check_candidates_request hl hc sl sc rid
      = [0,0,0,6] ++ hl ++ List.replicate 12 0 ++ hc ++ List.replicate 12 0
        ++ be16 sl ++ be16 sc ++ be32 rid ++ List.replicate 12 0
    ∧ (check_candidates_request hl hc sl sc rid).length = 88
    ∧ (check_candidates_response resp rid = Except.ok () ↔
        resp.length = 88 ∧ readBE32 resp 0 = 7 ∧ readBE32 resp 72 = rid) := by
  have hframe : check_candidates_request hl hc sl sc rid
      = [0,0,0,6] ++ hl ++ List.replicate 12 0 ++ hc ++ List.replicate 12 0
        ++ be16 sl ++ be16 sc ++ be32 rid ++ List.replicate 12 0 := by
    unfold check_candidates_request
    rw [show writeBytes (List.replicate 88 (0:Nat)) 0 (be32 6)
        = [0,0,0,6] ++ List.replicate 84 0 from rfl]
    rw [writeBytes_at [0,0,0,6] (List.replicate 84 0) hl 4 rfl, h1]
    rw [show List.drop 20 (List.replicate 84 (0:Nat)) = List.replicate 64 0 from rfl]
    rw [show ([0,0,0,6] : List Nat) ++ (hl ++ List.replicate 64 0)
        = ([0,0,0,6] ++ (hl ++ List.replicate 12 0)) ++ List.replicate 52 0 by
      simp [List.append_assoc, ← List.replicate_add]]
    rw [writeBytes_at ([0,0,0,6] ++ (hl ++ List.replicate 12 0)) (List.replicate 52 0) hc 36
        (by simp [h1]), h2]
    rw [show List.drop 20 (List.replicate 52 (0:Nat)) = List.replicate 32 0 from rfl]
    rw [show ([0,0,0,6] : List Nat) ++ (hl ++ List.replicate 12 0) ++ (hc ++ List.replicate 32 0)
        = ([0,0,0,6] ++ (hl ++ (List.replicate 12 0 ++ (hc ++ List.replicate 12 0))))
          ++ List.replicate 20 0 by
      simp [List.append_assoc, ← List.replicate_add]]
    rw [writeBytes_at _ (List.replicate 20 0) (be16 sl) 68 (by simp [h1, h2])]
    rw [show List.drop (be16 sl).length (List.replicate 20 (0:Nat))
        = List.replicate 18 0 from by simp [be16]]
    rw [show ([0,0,0,6] : List Nat)
          ++ (hl ++ (List.replicate 12 0 ++ (hc ++ List.replicate 12 0)))
          ++ (be16 sl ++ List.replicate 18 0)
        = ([0,0,0,6] ++ (hl ++ (List.replicate 12 0 ++ (hc ++ (List.replicate 12 0 ++ be16 sl)))))
          ++ List.replicate 18 0 by
      simp [List.append_assoc]]
    rw [writeBytes_at _ (List.replicate 18 0) (be16 sc) 70 (by simp [h1, h2, be16])]
    rw [show List.drop (be16 sc).length (List.replicate 18 (0:Nat))
        = List.replicate 16 0 from by simp [be16]]
    rw [show ([0,0,0,6] : List Nat)
          ++ (hl ++ (List.replicate 12 0 ++ (hc ++ (List.replicate 12 0 ++ be16 sl))))
          ++ (be16 sc ++ List.replicate 16 0)
        = ([0,0,0,6] ++ (hl ++ (List.replicate 12 0
            ++ (hc ++ (List.replicate 12 0 ++ (be16 sl ++ be16 sc)))))) ++ List.replicate 16 0 by
      simp [List.append_assoc]]
    rw [writeBytes_at _ (List.replicate 16 0) (be32 rid) 72 (by simp [h1, h2, be16])]
    rw [show List.drop (be32 rid).length (List.replicate 16 (0:Nat))
        = List.replicate 12 0 from by simp [be32]]
    simp [List.append_assoc]
  refine ⟨hframe, ?_, ?_⟩
  · rw [hframe]
    simp [be16, be32, h1, h2]
  · unfold check_candidates_response
    split_ifs with hlen htype hid <;> simp_all

/-- Witness for C8 at concrete hashed ids, sids, request id and a well-formed
response. -/
theorem check_candidates_probe_format_witness :
    ((List.replicate 20 1 : List Nat).length = 20
      ∧ (List.replicate 20 2 : List Nat).length = 20)
    ∧ (check_candidates_request (List.replicate 20 1) (List.replicate 20 2) 258 3 70000
        = [0,0,0,6] ++ List.replicate 20 1 ++ List.replicate 12 0 ++ List.replicate 20 2
          ++ List.replicate 12 0 ++ be16 258 ++ be16 3 ++ be32 70000 ++ List.replicate 12 0
      ∧ (check_candidates_request (List.replicate 20 1) (List.replicate 20 2) 258 3 70000).length = 88
      ∧ (check_candidates_response
            ([0,0,0,7] ++ List.replicate 68 0 ++ be32 70000 ++ List.replicate 12 0) 70000
            = Except.ok ()
          ↔ ([0,0,0,7] ++ List.replicate 68 0 ++ be32 70000 ++ List.replicate 12 0).length = 88
            ∧ readBE32 ([0,0,0,7] ++ List.replicate 68 0 ++ be32 70000 ++ List.replicate 12 0) 0 = 7
            ∧ readBE32 ([0,0,0,7] ++ List.replicate 68 0 ++ be32 70000 ++ List.replicate 12 0) 72
                = 70000)) :=
  ⟨⟨by decide, by decide⟩,
   check_candidates_probe_format (List.replicate 20 1) (List.replicate 20 2) 258 3 70000
     ([0,0,0,7] ++ List.replicate 68 0 ++ be32 70000 ++ List.replicate 12 0)
     (by decide) (by decide)⟩

/-- C9 counterexample: the claim says that with two pending matching
notifications the earliest-enqueued one is returned; the walk starts at the
queue head, which is the newest entry, so with matching entries of ids 1
(newest) and 0 (enqueued first) the call returns id 1, not id 0. -/
theorem wait_for_notification_returns_newest :
    wait_for_notification NOTIFICATION_TYPE_SESSION_CREATED
        [⟨NOTIFICATION_TYPE_SESSION_CREATED, 1⟩, ⟨NOTIFICATION_TYPE_SESSION_CREATED, 0⟩] [] 0
      = (some ⟨NOTIFICATION_TYPE_SESSION_CREATED, 1⟩, 0)
    ∧ (⟨NOTIFICATION_TYPE_SESSION_CREATED, 1⟩ : Notification)
        ≠ ⟨NOTIFICATION_TYPE_SESSION_CREATED, 0⟩ :=
  ⟨rfl, by decide⟩

/-- C9 amended: wait_for_notification returns the most recently enqueued
matching notification (the first match of the newest-first walk), and a match
already pending when the call starts is returned by the first scan with no
condition-variable wait, regardless of later arrivals. -/
theorem wait_for_notification_first_scan (types : Nat) (pre post : List Notification)
    (n : Notification) (arrivals : List Notification)
    (hpre : ∀ m ∈ pre, notif_matches types m = false)
    (hn : notif_matches types n = true) :
    wait_for_notification types (pre ++ n :: post) arrivals 0 = (some n, 0) := by
  have hscan : wait_scan types (pre ++ n :: post) = some n := by
    unfold wait_scan
    induction pre with
    | nil => simp [hn]
    | cons m rest ih =>
      rw [List.cons_append, List.find?_cons_of_neg _ (by simp [hpre m (by simp)])]
      exact ih (fun x hx => hpre x (by simp [hx]))
  cases arrivals with
  | nil => simp [wait_for_notification, hscan]
  | cons a rest => simp [wait_for_notification, hscan]

/-- Witness for C9 amended: a non-matching newest entry, then the returned
match, then an older match that is ignored. -/
theorem wait_for_notification_first_scan_witness :
    (∀ m ∈ ([⟨NOTIFICATION_TYPE_MEMBER_DELETED, 5⟩] : List Notification),
        notif_matches NOTIFICATION_TYPE_SESSION_CREATED m = false)
    ∧ notif_matches NOTIFICATION_TYPE_SESSION_CREATED ⟨NOTIFICATION_TYPE_SESSION_CREATED, 1⟩ = true
    ∧ wait_for_notification NOTIFICATION_TYPE_SESSION_CREATED
        ([⟨NOTIFICATION_TYPE_MEMBER_DELETED, 5⟩]
          ++ ⟨NOTIFICATION_TYPE_SESSION_CREATED, 1⟩ :: [⟨NOTIFICATION_TYPE_SESSION_CREATED, 0⟩])
        [] 0
      = (some ⟨NOTIFICATION_TYPE_SESSION_CREATED, 1⟩, 0) :=
  ⟨by decide, by decide,
   wait_for_notification_first_scan NOTIFICATION_TYPE_SESSION_CREATED
     [⟨NOTIFICATION_TYPE_MEMBER_DELETED, 5⟩] [⟨NOTIFICATION_TYPE_SESSION_CREATED, 0⟩]
     ⟨NOTIFICATION_TYPE_SESSION_CREATED, 1⟩ [] (by decide) (by decide)⟩

/-- C10 counterexample: the claim says the classifier assigns MEMBER_DELETED to
dataType psn:sessionManager:sys:rps:members:deleted; parse_notification_type
has no case for that string and returns UNKNOWN. -/
theorem parse_notification_type_members_deleted_is_unknown :
    parse_notification_type (Json.obj [("dataType",
        Json.str "psn:sessionManager:sys:rps:members:deleted")])
      = NOTIFICATION_TYPE_UNKNOWN
    ∧ NOTIFICATION_TYPE_UNKNOWN ≠ NOTIFICATION_TYPE_MEMBER_DELETED :=
  ⟨rfl, by decide⟩

/-- C10 amended: every dataType outside the four recognised strings - the
members:deleted string among them - classifies as UNKNOWN, and a frame of
UNKNOWN kind is still enqueued by the reader thread. -/
theorem parse_notification_type_unlisted_unknown_enqueued (s : String)
    (h1 : s ≠ "psn:sessionManager:sys:remotePlaySession:created")
    (h2 : s ≠ "psn:sessionManager:sys:rps:members:created")
    (h3 : s ≠ "psn:sessionManager:sys:rps:customData1:updated")
    (h4 : s ≠ "psn:sessionManager:sys:rps:sessionMessage:created") :
    parse_notification_type (Json.obj [("dataType", Json.str s)]) = NOTIFICATION_TYPE_UNKNOWN
    ∧ ∀ state parsed,
        (websocket_handle_frame state NOTIFICATION_TYPE_UNKNOWN parsed).enqueued = true := by
  constructor
  · simp [parse_notification_type, json_object_object_get_ex, List.lookup, h1, h2, h3, h4]
  · intro state parsed
    simp [websocket_handle_frame, NOTIFICATION_TYPE_UNKNOWN,
      NOTIFICATION_TYPE_SESSION_MESSAGE_CREATED]

/-- Witness for C10 amended at the members:deleted dataType. -/
theorem parse_notification_type_unlisted_unknown_enqueued_witness :
    ("psn:sessionManager:sys:rps:members:deleted"
        ≠ "psn:sessionManager:sys:remotePlaySession:created")
    ∧ ("psn:sessionManager:sys:rps:members:deleted"
        ≠ "psn:sessionManager:sys:rps:members:created")
    ∧ ("psn:sessionManager:sys:rps:members:deleted"
        ≠ "psn:sessionManager:sys:rps:customData1:updated")
    ∧ ("psn:sessionManager:sys:rps:members:deleted"
        ≠ "psn:sessionManager:sys:rps:sessionMessage:created")
    ∧ (parse_notification_type (Json.obj [("dataType",
          Json.str "psn:sessionManager:sys:rps:members:deleted")])
        = NOTIFICATION_TYPE_UNKNOWN
      ∧ ∀ state parsed,
          (websocket_handle_frame state NOTIFICATION_TYPE_UNKNOWN parsed).enqueued = true) :=
  ⟨by decide, by decide, by decide, by decide,
   parse_notification_type_unlisted_unknown_enqueued
     "psn:sessionManager:sys:rps:members:deleted"
     (by decide) (by decide) (by decide) (by decide)⟩

end Holepunch
